import Mathlib

/-!
Verification of the colaboradores-api data reconciliation pipeline.

The definitions below are a shallow embedding of `app/services.py` and
`app/routes.py`:

* `ColaboradorDB`, `ColaboradorSheet`, `ColaboradorCompleto` mirror the
  pydantic models in `app/models.py` (floats are modelled as rationals).
* A raw spreadsheet row after pandas parsing and column renaming is a
  `RawRow`: each of the three relevant columns (`matricula`,
  `cargo_contabil`, `salario`) holds `Option String`, where `none` models
  a blank cell (pandas `NaN`) and `some s` models the cell's textual
  content.  `str()` applied to a cell is modelled as the identity on that
  text.
* `dropnaMatricula` models `df.dropna(subset=['matricula'])`
  (services.py line 95).
* `ffillRows` models the per-column `fillna(method='ffill')` loop over
  `['matricula', 'cargo_contabil', 'salario']` (services.py lines 105-107),
  with the three column cursors threaded row by row (the columns are
  independent, so this is the same as filling each column separately).
* `parseDecimal` models parsing a cell's text as a (non-exponent) decimal
  number; `truncQ` models Python `int()` applied to that number
  (truncation toward zero); `stripDots`/`commaToDot` model
  `.replace('.', '')` and `.replace(',', '.')` on the salary text
  (services.py lines 114-115).
* `coerceRow` models the body of the per-row loop (services.py
  lines 112-129): a `ValueError` in either conversion, or a blank
  `matricula`, makes the row contribute nothing (`none`).
* `combine_colaboradores_data` models the join (services.py
  lines 142-175); `sheet_data_map` models the dict comprehension
  `{col.matricula: col for col in sheet_data}` followed by `.get`,
  where a later list element overwrites an earlier one with the
  same key.
* The route functions model `app/routes.py`, with a fetch result
  `none` standing for a failed network/database fetch (the service
  functions turn those into `[]`) and `Except Nat` standing for
  either an `HTTPException` with the given status code or a normal
  JSON response.
-/

/-- Mirrors pydantic model `ColaboradorDB` (models.py): an authoritative
database record. -/
structure ColaboradorDB where
  codigo : Int
  nome : String
  cpf : String
  genero : String
deriving DecidableEq

/-- Mirrors pydantic model `ColaboradorSheet` (models.py): a normalized
external spreadsheet record.  `salario` is a rational standing for the
Python float. -/
structure ColaboradorSheet where
  matricula : String
  cargo_contabil : Option String := none
  salario : Option ℚ := none
  admissao : Option String := none
deriving DecidableEq

/-- Mirrors pydantic model `ColaboradorCompleto` (models.py): a combined
record. -/
structure ColaboradorCompleto where
  codigo : Int
  nome : String
  cpf : String
  genero : String
  cargo_contabil : Option String := none
  salario : Option ℚ := none
  admissao : Option String := none
deriving DecidableEq

/-- A spreadsheet data row after `pd.read_csv` + column renaming, restricted
to the three columns the cleaning logic touches.  `none` is a blank cell
(pandas `NaN`); `some s` is the cell's textual content. -/
structure RawRow where
  matricula : Option String
  cargo_contabil : Option String
  salario : Option String
deriving DecidableEq

/-- Models `df.dropna(subset=['matricula'])` (services.py line 95): keep only
rows whose `matricula` cell is non-blank. -/
def dropnaMatricula (rows : List RawRow) : List RawRow :=
  rows.filter (fun r => r.matricula.isSome)

/-- One step of forward fill for a single cell: a blank cell takes the
cursor's value, a non-blank cell keeps its own value. -/
def fillCell (cursor cell : Option String) : Option String :=
  match cell with
  | none => cursor
  | some v => some v

/-- The new cursor after a cell: unchanged on a blank cell, the cell's value
otherwise.  This coincides with `fillCell`. -/
def ffillAux (lm lc ls : Option String) : List RawRow → List RawRow
  | [] => []
  | r :: rest =>
    let m := fillCell lm r.matricula
    let c := fillCell lc r.cargo_contabil
    let s := fillCell ls r.salario
    ⟨m, c, s⟩ :: ffillAux m c s rest

/-- Models the loop `for col in ['matricula', 'cargo_contabil', 'salario']:
df[col] = df[col].fillna(method='ffill')` (services.py lines 105-107): each
column is forward-filled independently; the cursors start absent. -/
def ffillRows (rows : List RawRow) : List RawRow :=
  ffillAux none none none rows

/-- `str.replace('.', '')` on the salary text: remove every dot. -/
def stripDots (s : String) : String :=
  String.mk (s.toList.filter (fun c => c ≠ '.'))

/-- `str.replace(',', '.')` on the salary text: turn every comma into a
dot. -/
def commaToDot (s : String) : String :=
  String.mk (s.toList.map (fun c => if c = ',' then '.' else c))

/-- Numeric value of a digit string (most significant digit first). -/
def digitsToNat (l : List Char) : Nat :=
  l.foldl (fun a c => 10 * a + (c.toNat - 48)) 0

/-- Split a character list at every dot.  Own recursive definition so the
parser below is easy to reason about. -/
def splitOnDot : List Char → List (List Char)
  | [] => [[]]
  | c :: rest =>
    if c = '.' then [] :: splitOnDot rest
    else
      match splitOnDot rest with
      | [] => [[c]]
      | p :: ps => (c :: p) :: ps

/-- Parse an unsigned decimal numeral, with an optional single dot: either
all digits, or digits-dot-digits with at least one digit overall (Python
`float` accepts `"1."` and `".5"` but not `"."` or `""`). -/
def parsePos (l : List Char) : Option ℚ :=
  match splitOnDot l with
  | [ip] =>
      if ip ≠ [] ∧ ip.all Char.isDigit then some ((digitsToNat ip : ℚ))
      else none
  | [ip, fp] =>
      if ip ++ fp ≠ [] ∧ ip.all Char.isDigit ∧ fp.all Char.isDigit then
        some ((digitsToNat ip : ℚ) + (digitsToNat fp : ℚ) / (10 : ℚ) ^ fp.length)
      else none
  | _ => none

/-- Strip an optional leading sign, then parse the unsigned part. -/
def parseSigned : List Char → Option ℚ
  | [] => none
  | c :: rest =>
    if c = '-' then (parsePos rest).map (fun q => -q)
    else if c = '+' then parsePos rest
    else parsePos (c :: rest)

/-- Parse a cell's text as a plain decimal number with an optional sign,
the grammar the spreadsheet's numeric cells actually use (no exponent, no
whitespace, no underscores).  Returns `none` where Python number conversion
raises `ValueError`. -/
def parseDecimal (s : String) : Option ℚ :=
  parseSigned s.toList

/-- Python `int()` applied to a number: truncation toward zero.  Both
divisions below are of non-negative integers, where every integer-division
convention agrees. -/
def truncQ (q : ℚ) : Int :=
  if q.num < 0 then -((-q.num) / (q.den : Int)) else q.num / (q.den : Int)

/-- Salary coercion (services.py line 115):
`float(str(cell).replace('.', '').replace(',', '.'))`. -/
def parseSalary (s : String) : Option ℚ :=
  parseDecimal (commaToDot (stripDots s))

/-- The body of the per-row loop (services.py lines 112-129).
`matricula_val = str(int(cell))` with a blank cell giving `None`;
`salario_val = float(str(cell).replace('.', '').replace(',', '.'))` with a
blank cell giving `None`; a `ValueError` in either conversion skips the
whole row (`continue`); `admissao` is always `None`; the row is appended
only when `matricula_val` is truthy (a rendered integer is never the empty
string, so every surviving row is appended). -/
def coerceRow (r : RawRow) : Option ColaboradorSheet :=
  match r.matricula with
  | none => none
  | some m =>
    match parseDecimal m with
    | none => none
    | some q =>
      match r.salario with
      | none => some ⟨toString (truncQ q), r.cargo_contabil, none, none⟩
      | some s =>
        match parseSalary s with
        | none => none
        | some v => some ⟨toString (truncQ q), r.cargo_contabil, some v, none⟩

/-- The cleaning pipeline of `get_colaboradores_from_google_sheets_csv`
after parsing and renaming (services.py lines 95-131): drop blank-key rows,
forward-fill, then coerce row by row, skipping rows that fail. -/
def sheetRowsToColaboradores (rows : List RawRow) : List ColaboradorSheet :=
  (ffillRows (dropnaMatricula rows)).filterMap coerceRow

/-- `get_colaboradores_from_google_sheets_csv` (services.py lines 65-140):
a failed fetch / empty CSV / unexpected parse error (`fetch = none`) returns
`[]`; otherwise the cleaning pipeline runs on the parsed rows. -/
def get_colaboradores_from_google_sheets_csv
    (fetch : Option (List RawRow)) : List ColaboradorSheet :=
  match fetch with
  | none => []
  | some rows => sheetRowsToColaboradores rows

/-- `get_colaboradores_from_db` (services.py lines 28-63): a failed
connection or query (`fetch = none`) returns `[]`; otherwise the fetched
records are returned as-is. -/
def get_colaboradores_from_db
    (fetch : Option (List ColaboradorDB)) : List ColaboradorDB :=
  match fetch with
  | none => []
  | some rows => rows

/-- The dict comprehension `{col.matricula: col for col in sheet_data}`
followed by `.get(key)` (services.py lines 147 and 152): a later element
with the same key overwrites an earlier one, so lookup prefers the rest of
the list. -/
def sheet_data_map (sheet : List ColaboradorSheet) (k : String) :
    Option ColaboradorSheet :=
  match sheet with
  | [] => none
  | c :: rest =>
    match sheet_data_map rest k with
    | some r => some r
    | none => if c.matricula = k then some c else none

/-- The body of the join loop (services.py lines 150-174): look the
stringified `codigo` up in the sheet map; on a hit copy the sheet record's
optional fields, otherwise leave them `None`. -/
def combineOne (sheet : List ColaboradorSheet) (d : ColaboradorDB) :
    ColaboradorCompleto :=
  match sheet_data_map sheet (toString d.codigo) with
  | some s =>
    ⟨d.codigo, d.nome, d.cpf, d.genero, s.cargo_contabil, s.salario, s.admissao⟩
  | none =>
    ⟨d.codigo, d.nome, d.cpf, d.genero, none, none, none⟩

/-- `combine_colaboradores_data` (services.py lines 142-175): one combined
record per database record, in database order. -/
def combine_colaboradores_data (db_data : List ColaboradorDB)
    (sheet_data : List ColaboradorSheet) : List ColaboradorCompleto :=
  db_data.map (combineOne sheet_data)

/-- Endpoint `GET /colaboradores/banco` (routes.py lines 8-17): an empty
result list raises `HTTPException(500)`. -/
def read_colaboradores_from_db (fetch : Option (List ColaboradorDB)) :
    Except Nat (List ColaboradorDB) :=
  let colaboradores := get_colaboradores_from_db fetch
  if colaboradores = [] then Except.error 500 else Except.ok colaboradores

/-- Endpoint `GET /colaboradores/sheets` (routes.py lines 19-31): a missing
URL raises `HTTPException(400)`; an empty result list raises
`HTTPException(500)`. -/
def read_colaboradores_from_sheets (sheet_url : String)
    (fetch : Option (List RawRow)) : Except Nat (List ColaboradorSheet) :=
  if sheet_url = "" then Except.error 400
  else
    let colaboradores := get_colaboradores_from_google_sheets_csv fetch
    if colaboradores = [] then Except.error 500 else Except.ok colaboradores

/-- Endpoint `GET /colaboradores/completo` (routes.py lines 39-56): a
missing URL raises 400; an empty database result or an empty sheet result
raises 500; otherwise the combined list is returned. -/
def get_colaboradores_completos (sheet_url : String)
    (dbFetch : Option (List ColaboradorDB)) (sheetFetch : Option (List RawRow)) :
    Except Nat (List ColaboradorCompleto) :=
  if sheet_url = "" then Except.error 400
  else
    let db_data := get_colaboradores_from_db dbFetch
    if db_data = [] then Except.error 500
    else
      let sheet_data := get_colaboradores_from_google_sheets_csv sheetFetch
      if sheet_data = [] then Except.error 500
      else Except.ok (combine_colaboradores_data db_data sheet_data)

/-- Lookup in the sheet map only returns records of the sheet list, with the
matching key. -/
theorem sheet_data_map_eq_some {sheet : List ColaboradorSheet} {k : String}
    {s : ColaboradorSheet} (h : sheet_data_map sheet k = some s) :
    s ∈ sheet ∧ s.matricula = k := by
  induction sheet with
  | nil => simp [sheet_data_map] at h
  | cons c rest ih =>
    rw [sheet_data_map] at h
    cases hr : sheet_data_map rest k with
    | some r =>
      rw [hr] at h
      obtain ⟨hm, hk⟩ := ih (hr.trans h)
      exact ⟨List.mem_cons_of_mem _ hm, hk⟩
    | none =>
      rw [hr] at h
      by_cases hc : c.matricula = k
      · simp [hc] at h
        exact ⟨by simp [h], h ▸ hc⟩
      · simp [hc] at h

/-- Lookup in the sheet map misses exactly when no record carries the key. -/
theorem sheet_data_map_eq_none {sheet : List ColaboradorSheet} {k : String} :
    sheet_data_map sheet k = none ↔ ∀ s ∈ sheet, s.matricula ≠ k := by
  induction sheet with
  | nil => simp [sheet_data_map]
  | cons c rest ih =>
    rw [sheet_data_map]
    cases hr : sheet_data_map rest k with
    | some r =>
      simp only [iff_false, reduceCtorEq, false_iff]
      intro hall
      obtain ⟨hm, hk⟩ := sheet_data_map_eq_some hr
      exact hall r (List.mem_cons_of_mem _ hm) hk
    | none =>
      by_cases hc : c.matricula = k
      · simp [hc]
      · simp only [hc, if_false, true_iff, ne_eq]
        intro s hs
        rcases List.mem_cons.mp hs with hh | hh
        · exact hh ▸ hc
        · exact ih.mp hr s hh

/-- Appending sheet lists: the later list wins the lookup (last-write-wins
of the dict comprehension). -/
theorem sheet_data_map_append (l1 l2 : List ColaboradorSheet) (k : String) :
    sheet_data_map (l1 ++ l2) k = Option.or (sheet_data_map l2 k) (sheet_data_map l1 k) := by
  induction l1 with
  | nil => cases h : sheet_data_map l2 k <;> simp [sheet_data_map, Option.or, h]
  | cons c rest ih =>
    rw [List.cons_append, sheet_data_map, ih, sheet_data_map]
    cases h : sheet_data_map l2 k <;> cases h2 : sheet_data_map rest k <;>
      simp [Option.or]

/-- The join loop body copies the four authoritative fields in both
branches. -/
theorem combineOne_fields (sheet : List ColaboradorSheet) (d : ColaboradorDB) :
    (combineOne sheet d).codigo = d.codigo ∧ (combineOne sheet d).nome = d.nome ∧
    (combineOne sheet d).cpf = d.cpf ∧ (combineOne sheet d).genero = d.genero := by
  unfold combineOne
  cases h : sheet_data_map sheet (toString d.codigo) <;> simp

/-- Claim C2: the combined output has exactly one record per authoritative
record (`len(combined) == len(authoritative)` whatever the match rate), the
i-th combined record carries the i-th authoritative record's identity fields
(authoritative order is preserved and no authoritative record is dropped),
and every combined record is backed by an authoritative record (no
external-only record appears). -/
theorem combine_cardinality_order (db : List ColaboradorDB)
    (sheet : List ColaboradorSheet) :
    (combine_colaboradores_data db sheet).length = db.length ∧
    (∀ i (h : i < db.length), ∃ h2 : i < (combine_colaboradores_data db sheet).length,
      ((combine_colaboradores_data db sheet).get ⟨i, h2⟩).codigo = (db.get ⟨i, h⟩).codigo ∧
      ((combine_colaboradores_data db sheet).get ⟨i, h2⟩).nome = (db.get ⟨i, h⟩).nome ∧
      ((combine_colaboradores_data db sheet).get ⟨i, h2⟩).cpf = (db.get ⟨i, h⟩).cpf ∧
      ((combine_colaboradores_data db sheet).get ⟨i, h2⟩).genero = (db.get ⟨i, h⟩).genero) ∧
    (∀ c ∈ combine_colaboradores_data db sheet, ∃ d ∈ db,
      c.codigo = d.codigo ∧ c.nome = d.nome ∧ c.cpf = d.cpf ∧ c.genero = d.genero) := by
  refine ⟨by simp [combine_colaboradores_data], ?_, ?_⟩
  · intro i h
    have h2 : i < (combine_colaboradores_data db sheet).length := by
      simpa [combine_colaboradores_data] using h
    refine ⟨h2, ?_⟩
    have hget : (combine_colaboradores_data db sheet).get ⟨i, h2⟩ =
        combineOne sheet (db.get ⟨i, h⟩) := by
      simp [combine_colaboradores_data, List.get_eq_getElem]
    rw [hget]
    exact combineOne_fields sheet (db.get ⟨i, h⟩)
  · intro c hc
    obtain ⟨d, hd, hcd⟩ := List.mem_map.mp hc
    obtain ⟨h1, h2, h3, h4⟩ := combineOne_fields sheet d
    exact ⟨d, hd, by rw [← hcd]; exact h1, by rw [← hcd]; exact h2,
      by rw [← hcd]; exact h3, by rw [← hcd]; exact h4⟩

/-- Claim C2's theorem applied at a concrete input. -/
theorem combine_cardinality_order_witness :
    (combine_colaboradores_data
       [⟨1, "A", "1", "M"⟩, ⟨2, "B", "2", "F"⟩]
       [⟨"2", some "Caixa", some 10, none⟩]).length = 2 :=
  (combine_cardinality_order
    [⟨1, "A", "1", "M"⟩, ⟨2, "B", "2", "F"⟩]
    [⟨"2", some "Caixa", some 10, none⟩]).1

/-- Claim C3: the i-th combined record is built from the i-th authoritative
record: when the sheet map yields a record under the stringified `codigo`
(that record belongs to the external set and carries that key), the combined
record copies the four authoritative fields and that record's
`cargo_contabil`, `salario`, `admissao`; when the lookup misses (no external
record carries the key), those three fields are all `none`. -/
theorem combine_join_correct (db : List ColaboradorDB) (sheet : List ColaboradorSheet)
    (i : Nat) (h : i < db.length) :
    ∃ h2 : i < (combine_colaboradores_data db sheet).length,
      (∀ s, sheet_data_map sheet (toString (db.get ⟨i, h⟩).codigo) = some s →
        s ∈ sheet ∧ s.matricula = toString (db.get ⟨i, h⟩).codigo ∧
        (combine_colaboradores_data db sheet).get ⟨i, h2⟩ =
          ⟨(db.get ⟨i, h⟩).codigo, (db.get ⟨i, h⟩).nome, (db.get ⟨i, h⟩).cpf,
           (db.get ⟨i, h⟩).genero, s.cargo_contabil, s.salario, s.admissao⟩) ∧
      (sheet_data_map sheet (toString (db.get ⟨i, h⟩).codigo) = none →
        (∀ s ∈ sheet, s.matricula ≠ toString (db.get ⟨i, h⟩).codigo) ∧
        (combine_colaboradores_data db sheet).get ⟨i, h2⟩ =
          ⟨(db.get ⟨i, h⟩).codigo, (db.get ⟨i, h⟩).nome, (db.get ⟨i, h⟩).cpf,
           (db.get ⟨i, h⟩).genero, none, none, none⟩) := by
  have h2 : i < (combine_colaboradores_data db sheet).length := by
    simpa [combine_colaboradores_data] using h
  have hget : (combine_colaboradores_data db sheet).get ⟨i, h2⟩ =
      combineOne sheet (db.get ⟨i, h⟩) := by
    simp [combine_colaboradores_data, List.get_eq_getElem]
  refine ⟨h2, ?_, ?_⟩
  · intro s hs
    obtain ⟨hmem, hkey⟩ := sheet_data_map_eq_some hs
    refine ⟨hmem, hkey, ?_⟩
    rw [hget]
    unfold combineOne
    rw [hs]
  · intro hn
    refine ⟨sheet_data_map_eq_none.mp hn, ?_⟩
    rw [hget]
    unfold combineOne
    rw [hn]

/-- Claim C3's theorem applied at the spec's concrete example: authoritative
`{id:42, name:"Ana", taxId:"111", gender:"F"}` joined with external
`{externalId:"42", role:"Caixa", salary:1500.0}` carries the external
fields, and joined with an external set with no id `"42"` leaves them all
absent. -/
theorem combine_join_correct_witness :
    (combine_colaboradores_data [⟨42, "Ana", "111", "F"⟩]
      [⟨"42", some "Caixa", some 1500, none⟩]).get ⟨0, by simp [combine_colaboradores_data]⟩ =
      ⟨42, "Ana", "111", "F", some "Caixa", some 1500, none⟩ ∧
    (combine_colaboradores_data [⟨42, "Ana", "111", "F"⟩]
      [⟨"7", some "Caixa", some 1500, none⟩]).get ⟨0, by simp [combine_colaboradores_data]⟩ =
      ⟨42, "Ana", "111", "F", none, none, none⟩ := by
  constructor
  · obtain ⟨h2, hsome, -⟩ := combine_join_correct [⟨42, "Ana", "111", "F"⟩]
      [⟨"42", some "Caixa", some 1500, none⟩] 0 (by decide)
    exact (hsome ⟨"42", some "Caixa", some 1500, none⟩ (by with_unfolding_all rfl)).2.2
  · obtain ⟨h2, -, hnone⟩ := combine_join_correct [⟨42, "Ana", "111", "F"⟩]
      [⟨"7", some "Caixa", some 1500, none⟩] 0 (by decide)
    exact (hnone (by with_unfolding_all rfl)).2

/-- Claim C9: with duplicate external ids the dict comprehension keeps the
last record in input order: the lookup returns `s2` (the later duplicate),
no error is signalled, and a matching combined record carries `s2`'s
`cargo_contabil`, `salario` and `admissao`. -/
theorem sheet_map_last_write_wins (pre mid post : List ColaboradorSheet)
    (s1 s2 : ColaboradorSheet) (k : String) (h1 : s1.matricula = k)
    (h2 : s2.matricula = k) (hpost : ∀ c ∈ post, c.matricula ≠ k) :
    sheet_data_map (pre ++ s1 :: (mid ++ s2 :: post)) k = some s2 ∧
    (∀ d : ColaboradorDB, toString d.codigo = k →
      combine_colaboradores_data [d] (pre ++ s1 :: (mid ++ s2 :: post)) =
        [⟨d.codigo, d.nome, d.cpf, d.genero, s2.cargo_contabil, s2.salario, s2.admissao⟩]) := by
  have hpostn : sheet_data_map post k = none := sheet_data_map_eq_none.mpr hpost
  have hs2 : sheet_data_map (s2 :: post) k = some s2 := by
    rw [sheet_data_map, hpostn, h2]
    simp
  have htail : sheet_data_map (s1 :: (mid ++ s2 :: post)) k = some s2 := by
    rw [sheet_data_map, sheet_data_map_append, hs2]
    simp [Option.or]
  have hall : sheet_data_map (pre ++ s1 :: (mid ++ s2 :: post)) k = some s2 := by
    rw [sheet_data_map_append, htail]
    simp [Option.or]
  refine ⟨hall, ?_⟩
  intro d hd
  simp only [combine_colaboradores_data, List.map_cons, List.map_nil]
  unfold combineOne
  rw [hd, hall]

/-- Claim C9's theorem applied at a concrete input: two external records
share id `"5"`; the combined record carries the second one's role and
salary. -/
theorem sheet_map_last_write_wins_witness :
    sheet_data_map [⟨"5", some "roleA", some 100, none⟩, ⟨"5", some "roleB", some 200, none⟩] "5"
      = some ⟨"5", some "roleB", some 200, none⟩ ∧
    combine_colaboradores_data [⟨5, "E", "9", "M"⟩]
      [⟨"5", some "roleA", some 100, none⟩, ⟨"5", some "roleB", some 200, none⟩] =
      [⟨5, "E", "9", "M", some "roleB", some 200, none⟩] := by
  obtain ⟨ha, hb⟩ := sheet_map_last_write_wins [] []
    [] ⟨"5", some "roleA", some 100, none⟩ ⟨"5", some "roleB", some 200, none⟩ "5"
    rfl rfl (by simp)
  exact ⟨ha, hb ⟨5, "E", "9", "M"⟩ (by with_unfolding_all rfl)⟩

/-- Claim C4 counterexample: each per-source endpoint signals failure
(HTTP 500) when its source yields zero usable records, instead of returning
an empty sequence — here at the concrete input of a successful fetch with
zero rows. -/
theorem per_source_empty_counterexample :
    read_colaboradores_from_db (some []) = Except.error 500 ∧
    read_colaboradores_from_sheets "u" (some []) = Except.error 500 :=
  ⟨rfl, rfl⟩

/-- Claim C4 amended: the per-source service functions return an empty list
(no exception) when the source fails, but each per-source endpoint raises
HTTP 500 exactly when the service's list is empty — empty input is a
failure condition for the per-source operations too, not only for the
combined view. -/
theorem per_source_empty_amended (url : String)
    (dbFetch : Option (List ColaboradorDB)) (sheetFetch : Option (List RawRow))
    (hurl : url ≠ "") :
    get_colaboradores_from_db none = [] ∧
    get_colaboradores_from_google_sheets_csv none = [] ∧
    (read_colaboradores_from_db dbFetch = Except.error 500 ↔
      get_colaboradores_from_db dbFetch = []) ∧
    (read_colaboradores_from_sheets url sheetFetch = Except.error 500 ↔
      get_colaboradores_from_google_sheets_csv sheetFetch = []) := by
  refine ⟨rfl, rfl, ?_, ?_⟩
  · unfold read_colaboradores_from_db
    by_cases h : get_colaboradores_from_db dbFetch = [] <;> simp [h]
  · unfold read_colaboradores_from_sheets
    rw [if_neg hurl]
    by_cases h : get_colaboradores_from_google_sheets_csv sheetFetch = [] <;> simp [h]

/-- Claim C4's amended theorem applied at a concrete input. -/
theorem per_source_empty_amended_witness :
    get_colaboradores_from_db none = [] ∧
    get_colaboradores_from_google_sheets_csv none = [] ∧
    (read_colaboradores_from_db (some []) = Except.error 500 ↔
      get_colaboradores_from_db (some []) = []) ∧
    (read_colaboradores_from_sheets "u" (some []) = Except.error 500 ↔
      get_colaboradores_from_google_sheets_csv (some []) = []) :=
  per_source_empty_amended "u" (some []) (some []) (by decide)

/-- Claim C5: given a provided URL, the combined-view endpoint fails as a
whole (HTTP 500, no partial list) whenever either source's fetch fails or
yields zero usable records, and succeeds with the full combined list
whenever both lists are non-empty — individual row defects, partial and
missing matches can only shape the combined records, never fail the
request. -/
theorem combined_view_all_or_nothing (url : String)
    (dbFetch : Option (List ColaboradorDB)) (sheetFetch : Option (List RawRow))
    (hurl : url ≠ "") :
    (get_colaboradores_from_db dbFetch = [] ∨
        get_colaboradores_from_google_sheets_csv sheetFetch = [] →
      get_colaboradores_completos url dbFetch sheetFetch = Except.error 500) ∧
    (get_colaboradores_from_db dbFetch ≠ [] →
      get_colaboradores_from_google_sheets_csv sheetFetch ≠ [] →
      get_colaboradores_completos url dbFetch sheetFetch =
        Except.ok (combine_colaboradores_data (get_colaboradores_from_db dbFetch)
          (get_colaboradores_from_google_sheets_csv sheetFetch))) := by
  constructor
  · intro hcase
    unfold get_colaboradores_completos
    rw [if_neg hurl]
    rcases hcase with h | h
    · simp [h]
    · by_cases hdb : get_colaboradores_from_db dbFetch = [] <;> simp [hdb, h]
  · intro hdb hsheet
    unfold get_colaboradores_completos
    rw [if_neg hurl]
    simp [hdb, hsheet]

/-- Claim C5's theorem applied at concrete inputs: one non-empty pair gives
the combined list, one empty sheet fetch gives HTTP 500. -/
theorem combined_view_all_or_nothing_witness :
    get_colaboradores_completos "u" (some [⟨1, "A", "1", "M"⟩])
        (some [⟨some "1", none, none⟩]) =
      Except.ok (combine_colaboradores_data [⟨1, "A", "1", "M"⟩]
        (get_colaboradores_from_google_sheets_csv (some [⟨some "1", none, none⟩]))) ∧
    get_colaboradores_completos "u" (some [⟨1, "A", "1", "M"⟩]) (some []) =
      Except.error 500 := by
  constructor
  · have h := combined_view_all_or_nothing "u" (some [⟨1, "A", "1", "M"⟩])
      (some [⟨some "1", none, none⟩]) (by decide)
    have e : get_colaboradores_from_google_sheets_csv (some [⟨some "1", none, none⟩]) =
        [⟨"1", none, none, none⟩] := by with_unfolding_all rfl
    exact h.2 (by decide) (by rw [e]; simp)
  · have h := combined_view_all_or_nothing "u" (some [⟨1, "A", "1", "M"⟩])
      (some []) (by decide)
    exact h.1 (Or.inr rfl)

/-- A row whose salary text does not parse is skipped whatever its other
cells hold: every branch of the row coercion that reaches the salary
conversion drops the row on failure, and the earlier branches drop it
anyway. -/
theorem coerceRow_eq_none_of_bad_salary (r : RawRow) (s : String)
    (h1 : r.salario = some s) (h2 : parseSalary s = none) :
    coerceRow r = none := by
  cases hm : r.matricula with
  | none => simp [coerceRow, hm]
  | some m =>
    cases hq : parseDecimal m with
    | none => simp [coerceRow, hm, hq]
    | some q => simp [coerceRow, hm, hq, h1, h2]

/-- Rows survive coercion only with a non-blank `matricula` cell that parses
as a number; the record's key is that number truncated to an integer and
rendered as a string, and the record's `cargo_contabil` and `admissao` copy
the cell and `None` respectively. -/
theorem coerceRow_eq_some_inv {r : RawRow} {c : ColaboradorSheet}
    (h : coerceRow r = some c) :
    ∃ m q, r.matricula = some m ∧ parseDecimal m = some q ∧
      c.matricula = toString (truncQ q) ∧ c.cargo_contabil = r.cargo_contabil ∧
      c.admissao = none := by
  cases hm : r.matricula with
  | none => simp [coerceRow, hm] at h
  | some m =>
    cases hq : parseDecimal m with
    | none => simp [coerceRow, hm, hq] at h
    | some q =>
      cases hs : r.salario with
      | none =>
        simp [coerceRow, hm, hq, hs] at h
        subst h
        exact ⟨m, q, rfl, hq, rfl, rfl, rfl⟩
      | some s =>
        cases hv : parseSalary s with
        | none => simp [coerceRow, hm, hq, hs, hv] at h
        | some v =>
          simp [coerceRow, hm, hq, hs, hv] at h
          subst h
          exact ⟨m, q, rfl, hq, rfl, rfl, rfl⟩

/-- Claim C6: salary coercion is exactly dot-stripping, comma-to-dot
replacement and a decimal parse; `"1.234,56"` coerces to `1234.56`,
`"500,00"` coerces to `500.00`; and a row with a blank salary cell (and a
parsing key) is kept with an absent salary, not zero. -/
theorem salary_coercion (m : String) (q : ℚ) (cargo : Option String)
    (hm : parseDecimal m = some q) :
    (∀ s : String, parseSalary s = parseDecimal (commaToDot (stripDots s))) ∧
    parseSalary "1.234,56" = some (1234.56 : ℚ) ∧
    parseSalary "500,00" = some (500.00 : ℚ) ∧
    coerceRow ⟨some m, cargo, none⟩ = some ⟨toString (truncQ q), cargo, none, none⟩ := by
  refine ⟨fun s => rfl, by with_unfolding_all rfl, by with_unfolding_all rfl, ?_⟩
  simp [coerceRow, hm]

/-- Claim C6's theorem applied at a concrete row with a blank salary
cell. -/
theorem salary_coercion_witness :
    (∀ s : String, parseSalary s = parseDecimal (commaToDot (stripDots s))) ∧
    parseSalary "1.234,56" = some (1234.56 : ℚ) ∧
    parseSalary "500,00" = some (500.00 : ℚ) ∧
    coerceRow ⟨some "7", some "Caixa", none⟩ =
      some ⟨toString (truncQ 7), some "Caixa", none, none⟩ :=
  salary_coercion "7" 7 (some "Caixa") (by with_unfolding_all rfl)

/-- Claim C7: a row whose salary text is unparseable (such as `"abc"`) is
dropped entirely from the coerced output while every other row is processed
normally — the coercion of the surrounding rows is unchanged and no error
value exists (the stage is a total function into a list). -/
theorem bad_salary_row_dropped (pre post : List RawRow) (r : RawRow)
    (s : String) (h1 : r.salario = some s) (h2 : parseSalary s = none) :
    coerceRow r = none ∧
    (pre ++ r :: post).filterMap coerceRow =
      pre.filterMap coerceRow ++ post.filterMap coerceRow ∧
    parseSalary "abc" = none := by
  have hnone : coerceRow r = none := coerceRow_eq_none_of_bad_salary r s h1 h2
  refine ⟨hnone, ?_, by with_unfolding_all rfl⟩
  rw [List.filterMap_append, List.filterMap_cons, hnone]

/-- Claim C7's theorem applied at a concrete input: the middle row carries
salary `"abc"` and disappears; its neighbours survive. -/
theorem bad_salary_row_dropped_witness :
    coerceRow ⟨some "2", some "X", some "abc"⟩ = none ∧
    (([⟨some "1", none, none⟩] ++ ⟨some "2", some "X", some "abc"⟩ ::
        [⟨some "3", none, none⟩] : List RawRow)).filterMap coerceRow =
      ([⟨some "1", none, none⟩] : List RawRow).filterMap coerceRow ++
        ([⟨some "3", none, none⟩] : List RawRow).filterMap coerceRow ∧
    parseSalary "abc" = none :=
  bad_salary_row_dropped [(⟨some "1", none, none⟩ : RawRow)]
    [(⟨some "3", none, none⟩ : RawRow)]
    (⟨some "2", some "X", some "abc"⟩ : RawRow) "abc" rfl (by with_unfolding_all rfl)

/-- A digit character is none of the separator or sign characters. -/
theorem digit_ne (c : Char) (h : c.isDigit = true) :
    c ≠ '.' ∧ c ≠ ',' ∧ c ≠ '-' ∧ c ≠ '+' := by
  refine ⟨?_, ?_, ?_, ?_⟩ <;> rintro rfl <;> exact absurd h (by decide)

/-- Splitting on dots is trivial on a dot-free list. -/
theorem splitOnDot_no_dot (l : List Char) (h : '.' ∉ l) : splitOnDot l = [l] := by
  induction l with
  | nil => rfl
  | cons c rest ih =>
    have hc : ¬c = '.' := fun e => h (e ▸ List.mem_cons_self c rest)
    rw [splitOnDot, if_neg hc, ih (fun hm => h (List.mem_cons_of_mem _ hm))]

/-- Parsing a non-empty all-digit string yields its numeral value. -/
theorem parseDecimal_digits (l : List Char) (hne : l ≠ [])
    (hd : l.all Char.isDigit) :
    parseDecimal (String.mk l) = some ((digitsToNat l : ℚ)) := by
  obtain ⟨c, rest, rfl⟩ := List.exists_cons_of_ne_nil hne
  have hc : c.isDigit = true := List.all_eq_true.mp hd c (List.mem_cons_self c rest)
  obtain ⟨-, -, h3, h4⟩ := digit_ne c hc
  have hdot : '.' ∉ c :: rest := by
    intro hmem
    exact absurd (List.all_eq_true.mp hd '.' hmem) (by decide)
  show parseSigned (c :: rest) = _
  rw [parseSigned, if_neg h3, if_neg h4]
  unfold parsePos
  rw [splitOnDot_no_dot _ hdot]
  simp [hd]

/-- Claim C10: because the dot-stripping step is unconditional, a non-blank
salary cell already in dot-decimal form (digits, one dot, digits, no comma)
is misscaled: the coerced value is the numeral formed by the digits with
the dot removed — `"1500.0"` coerces to `15000` and `"1234.56"` to
`123456`, not `1500.0` or `1234.56`. -/
theorem salary_dot_decimal_misscaled (ip fp : List Char)
    (h1 : ip.all Char.isDigit) (h2 : fp.all Char.isDigit)
    (h3 : ip ++ fp ≠ []) :
    parseSalary (String.mk (ip ++ '.' :: fp)) = some ((digitsToNat (ip ++ fp) : ℚ)) ∧
    parseSalary "1500.0" = some (15000 : ℚ) ∧
    parseSalary "1234.56" = some (123456 : ℚ) ∧
    (1500.0 : ℚ) ≠ 15000 ∧ (1234.56 : ℚ) ≠ 123456 := by
  refine ⟨?_, by with_unfolding_all rfl, by with_unfolding_all rfl,
    by with_unfolding_all decide, by with_unfolding_all decide⟩
  have hip : ∀ a ∈ ip, a ≠ '.' := fun a ha =>
    (digit_ne a (List.all_eq_true.mp h1 a ha)).1
  have hfp : ∀ a ∈ fp, a ≠ '.' := fun a ha =>
    (digit_ne a (List.all_eq_true.mp h2 a ha)).1
  have hstrip : stripDots (String.mk (ip ++ '.' :: fp)) = String.mk (ip ++ fp) := by
    unfold stripDots
    congr 1
    show (ip ++ '.' :: fp).filter (fun c => c ≠ '.') = ip ++ fp
    rw [List.filter_append, List.filter_cons,
      List.filter_eq_self.mpr (fun a ha => by simpa using hip a ha),
      List.filter_eq_self.mpr (fun a ha => by simpa using hfp a ha)]
    simp
  have hcomma : commaToDot (String.mk (ip ++ fp)) = String.mk (ip ++ fp) := by
    unfold commaToDot
    congr 1
    show (ip ++ fp).map (fun c => if c = ',' then '.' else c) = ip ++ fp
    have : ∀ a ∈ ip ++ fp, (fun c => if c = ',' then '.' else c) a = a := by
      intro a ha
      rcases List.mem_append.mp ha with hh | hh
      · exact if_neg (digit_ne a (List.all_eq_true.mp h1 a hh)).2.1
      · exact if_neg (digit_ne a (List.all_eq_true.mp h2 a hh)).2.1
    rw [List.map_congr_left this]
    simp
  unfold parseSalary
  rw [hstrip, hcomma]
  exact parseDecimal_digits (ip ++ fp) h3 (by
    rw [List.all_append, h1, h2]
    rfl)

/-- Claim C10's theorem applied at the concrete input `"1500.0"`. -/
theorem salary_dot_decimal_misscaled_witness :
    parseSalary (String.mk (['1', '5', '0', '0'] ++ '.' :: ['0'])) =
      some ((digitsToNat (['1', '5', '0', '0'] ++ ['0']) : ℚ)) ∧
    parseSalary "1500.0" = some (15000 : ℚ) ∧
    parseSalary "1234.56" = some (123456 : ℚ) ∧
    (1500.0 : ℚ) ≠ 15000 ∧ (1234.56 : ℚ) ≠ 123456 :=
  salary_dot_decimal_misscaled ['1', '5', '0', '0'] ['0']
    (by decide) (by decide) (by decide)

/-- Claim C8: every normalized external record carries a key obtained by
parsing its row's identifier cell as a number, truncating to an integer and
rendering it as a string; a row whose identifier cell is blank in the
input never reaches the output (it is removed before repair, so repair
cannot resurrect it), and a repaired row whose identifier text does not
parse coerces to nothing. -/
theorem externalId_required (rows : List RawRow) :
    (∀ c ∈ sheetRowsToColaboradores rows,
      ∃ r, r ∈ ffillRows (dropnaMatricula rows) ∧ coerceRow r = some c ∧
        ∃ m q, r.matricula = some m ∧ parseDecimal m = some q ∧
          c.matricula = toString (truncQ q)) ∧
    (∀ pre r post, rows = pre ++ r :: post → r.matricula = none →
      sheetRowsToColaboradores rows = sheetRowsToColaboradores (pre ++ post)) ∧
    (∀ r ∈ ffillRows (dropnaMatricula rows), ∀ m, r.matricula = some m →
      parseDecimal m = none → coerceRow r = none) := by
  refine ⟨?_, ?_, ?_⟩
  · intro c hc
    obtain ⟨r, hr, hcr⟩ := List.mem_filterMap.mp hc
    obtain ⟨m, q, hm, hq, hcm, -, -⟩ := coerceRow_eq_some_inv hcr
    exact ⟨r, hr, hcr, m, q, hm, hq, hcm⟩
  · intro pre r post hrows hm
    subst hrows
    simp [sheetRowsToColaboradores, dropnaMatricula, List.filter_append,
      List.filter_cons, hm]
  · intro r _ m hm hq
    simp [coerceRow, hm, hq]

/-- Claim C8's theorem applied at a concrete input: the blank-identifier
second row contributes nothing to the normalized set. -/
theorem externalId_required_witness :
    sheetRowsToColaboradores [⟨some "1", none, none⟩, ⟨none, some "x", none⟩] =
      sheetRowsToColaboradores [⟨some "1", none, none⟩] :=
  (externalId_required [⟨some "1", none, none⟩, ⟨none, some "x", none⟩]).2.1
    [⟨some "1", none, none⟩] ⟨none, some "x", none⟩ [] rfl rfl

/-- Claim C1 counterexample: on the spec's own input rows
`[("1","roleA","100"), ("","",""), ("2","roleB","200")]` the blank second
row is removed by the required-key `dropna` *before* merged-cell repair
runs, so the repaired sequence has only two rows and the normalized output
has keys `["1", "2"]` — there is no repaired second row carrying the first
row's values. -/
theorem repair_order_counterexample :
    dropnaMatricula [⟨some "1", some "roleA", some "100"⟩, ⟨none, none, none⟩,
        ⟨some "2", some "roleB", some "200"⟩] =
      [⟨some "1", some "roleA", some "100"⟩, ⟨some "2", some "roleB", some "200"⟩] ∧
    ffillRows (dropnaMatricula [⟨some "1", some "roleA", some "100"⟩, ⟨none, none, none⟩,
        ⟨some "2", some "roleB", some "200"⟩]) =
      [⟨some "1", some "roleA", some "100"⟩, ⟨some "2", some "roleB", some "200"⟩] ∧
    (sheetRowsToColaboradores [⟨some "1", some "roleA", some "100"⟩, ⟨none, none, none⟩,
        ⟨some "2", some "roleB", some "200"⟩]).map (fun c => c.matricula) = ["1", "2"] ∧
    ¬(sheetRowsToColaboradores [⟨some "1", some "roleA", some "100"⟩, ⟨none, none, none⟩,
        ⟨some "2", some "roleB", some "200"⟩]).map (fun c => c.matricula) =
      ["1", "1", "2"] := by
  have h3 : (sheetRowsToColaboradores [⟨some "1", some "roleA", some "100"⟩,
      ⟨none, none, none⟩, ⟨some "2", some "roleB", some "200"⟩]).map
        (fun c => c.matricula) = ["1", "2"] := by
    with_unfolding_all rfl
  refine ⟨by decide, by decide, h3, ?_⟩
  intro hcontra
  rw [h3] at hcontra
  exact absurd hcontra (by decide)

/-- The repaired sequence has as many rows as its input. -/
theorem ffillAux_length (L : List RawRow) :
    ∀ lm lc ls, (ffillAux lm lc ls L).length = L.length := by
  induction L with
  | nil => intro lm lc ls; rfl
  | cons r rest ih => intro lm lc ls; simp [ffillAux, ih]

/-- Forward-fill characterization: the i-th repaired row holds, in each
column, the fold of `fillCell` over the first `i+1` cells starting from the
column's cursor — that is, the last non-blank value at or before position
`i` (the cursor's value if all those cells are blank). -/
theorem ffillAux_get (L : List RawRow) :
    ∀ (lm lc ls : Option String) (i : Nat) (h : i < (ffillAux lm lc ls L).length),
      (ffillAux lm lc ls L).get ⟨i, h⟩ =
        ⟨(L.take (i + 1)).foldl (fun a r => fillCell a r.matricula) lm,
         (L.take (i + 1)).foldl (fun a r => fillCell a r.cargo_contabil) lc,
         (L.take (i + 1)).foldl (fun a r => fillCell a r.salario) ls⟩ := by
  induction L with
  | nil => intro lm lc ls i h; simp [ffillAux] at h
  | cons r rest ih =>
    intro lm lc ls i h
    cases i with
    | zero => rfl
    | succ n =>
      exact ih (fillCell lm r.matricula) (fillCell lc r.cargo_contabil)
        (fillCell ls r.salario) n (Nat.lt_of_succ_lt_succ h)

/-- Claim C1 amended: merged-cell repair forward-fills blank cells with the
nearest preceding non-blank value in each of the three columns and runs
before field coercion — but rows whose `matricula` cell is blank are
dropped *before* repair, so repair never fills a missing key and the spec's
example second row is dropped rather than repaired. -/
theorem repair_order_amended (rows : List RawRow) :
    sheetRowsToColaboradores rows =
      (ffillRows (dropnaMatricula rows)).filterMap coerceRow ∧
    (∀ r ∈ dropnaMatricula rows, r.matricula ≠ none) ∧
    (∀ i (h : i < (ffillRows (dropnaMatricula rows)).length),
      (ffillRows (dropnaMatricula rows)).get ⟨i, h⟩ =
        ⟨((dropnaMatricula rows).take (i + 1)).foldl
            (fun a r => fillCell a r.matricula) none,
         ((dropnaMatricula rows).take (i + 1)).foldl
            (fun a r => fillCell a r.cargo_contabil) none,
         ((dropnaMatricula rows).take (i + 1)).foldl
            (fun a r => fillCell a r.salario) none⟩) ∧
    ffillRows [⟨some "1", some "roleA", some "100"⟩, ⟨some "2", none, none⟩] =
      [⟨some "1", some "roleA", some "100"⟩, ⟨some "2", some "roleA", some "100"⟩] := by
  refine ⟨rfl, ?_, ?_, by decide⟩
  · intro r hr hnone
    unfold dropnaMatricula at hr
    have h2 := (List.mem_filter.mp hr).2
    rw [hnone] at h2
    exact absurd h2 (by decide)
  · intro i h
    exact ffillAux_get (dropnaMatricula rows) none none none i h

/-- Claim C1's amended theorem applied at a concrete input: the second
repaired row of a two-row sheet holds the fold of the first two cells in
every column. -/
theorem repair_order_amended_witness :
    (ffillRows (dropnaMatricula [⟨some "1", some "roleA", some "100"⟩,
        ⟨some "2", none, none⟩])).get ⟨1, by decide⟩ =
      ⟨((dropnaMatricula [⟨some "1", some "roleA", some "100"⟩,
            ⟨some "2", none, none⟩]).take 2).foldl
          (fun a r => fillCell a r.matricula) none,
       ((dropnaMatricula [⟨some "1", some "roleA", some "100"⟩,
            ⟨some "2", none, none⟩]).take 2).foldl
          (fun a r => fillCell a r.cargo_contabil) none,
       ((dropnaMatricula [⟨some "1", some "roleA", some "100"⟩,
            ⟨some "2", none, none⟩]).take 2).foldl
          (fun a r => fillCell a r.salario) none⟩ :=
  (repair_order_amended [⟨some "1", some "roleA", some "100"⟩,
    ⟨some "2", none, none⟩]).2.2.1 1 (by decide)

